import Mathlib

/-!
Verification of the nitrictech/gocli resource-requirements collector
(`pkgplus/collector/service.go`) and provider process supervisor
(`pkgplus/provider/exec.go`) against their natural-language specification.

Go maps from `string` keys are embedded as association lists with a
replace-or-add update (`SMap.upd`); every map built by the code has
pairwise-distinct keys, which the update preserves.  Protobuf messages are
embedded as structures carrying exactly the fields the Go code reads or
writes, plus an opaque `tag` field standing for the remaining payload.
gRPC streams are embedded by passing the result of the single `Recv` call
as an `Except`-valued argument and returning the handler's single `Send`
payload; fallible Go functions return `Except String`.
-/

namespace GoCli

/-- Association-list embedding of a Go `map[string]V`. -/
abbrev SMap (V : Type) : Type := List (String × V)

namespace SMap

/-- Go map read `m[k]` (presence-aware form `v, ok := m[k]`). -/
def lookupM {V : Type} (m : SMap V) (k : String) : Option V :=
  match m with
  | [] => none
  | (a, v) :: rest => if a = k then some v else lookupM rest k

/-- Go map write `m[k] = v`: replaces the binding for `k` or adds one. -/
def upd {V : Type} (m : SMap V) (k : String) (v : V) : SMap V :=
  (k, v) :: m.filter (fun p => p.1 ≠ k)

/-- Go slice-valued map append `m[k] = append(m[k], v)` (missing key reads
as the empty slice). -/
def appendTo {V : Type} (m : SMap (List V)) (k : String) (v : V) : SMap (List V) :=
  m.upd k (((m.lookupM k).getD []) ++ [v])

end SMap

/-- Embeds `resourcespb.ResourceType` (the enum values the collector mentions,
plus the remaining trigger/resource kinds its `switch` leaves unhandled). -/
inductive ResourceType where
  | Bucket
  | Collection
  | Api
  | ApiSecurityDefinition
  | Secret
  | Policy
  | Topic
  | Function
  | Websocket
  | Http
  | Queue
  | Schedule
  | Subscription
  | Notification
deriving DecidableEq

/-- Embeds `resourcespb.Resource`: a resource identifier (name + kind). -/
structure Resource where
  name : String
  type : ResourceType
deriving DecidableEq

/-- Embeds `resourcespb.BucketResource` (payload opaque to the collector). -/
structure BucketResource where
  tag : Nat
deriving DecidableEq

/-- Embeds `resourcespb.CollectionResource` (payload opaque to the collector). -/
structure CollectionResource where
  tag : Nat
deriving DecidableEq

/-- Embeds `resourcespb.ApiResource` (payload opaque to the collector). -/
structure ApiResource where
  tag : Nat
deriving DecidableEq

/-- Embeds `resourcespb.ApiSecurityDefinitionResource`: the collector reads its
`ApiName`; the rest of the payload is opaque. -/
structure ApiSecurityDefinitionResource where
  apiName : String
  tag : Nat
deriving DecidableEq

/-- Embeds `resourcespb.SecretResource` (payload opaque to the collector). -/
structure SecretResource where
  tag : Nat
deriving DecidableEq

/-- Embeds `resourcespb.TopicResource` (payload opaque to the collector). -/
structure TopicResource where
  tag : Nat
deriving DecidableEq

/-- Embeds `resourcespb.PolicyResource`: principals, actions and resources; the
collector reads and rewrites `Principals`. -/
structure PolicyResource where
  principals : List Resource
  actions : List Nat
  resources : List Resource
deriving DecidableEq

/-- The `oneof config` of `resourcespb.ResourceDeclareRequest`. -/
inductive DeclareConfig where
  | bucket (b : BucketResource)
  | collection (c : CollectionResource)
  | api (a : ApiResource)
  | apiSecurityDefinition (d : ApiSecurityDefinitionResource)
  | secret (s : SecretResource)
  | policy (p : PolicyResource)
  | topic (t : TopicResource)
  | unspecified
deriving DecidableEq

namespace DeclareConfig

/-- Embeds `req.GetBucket()`: `some` when the oneof holds a bucket, else `nil`. -/
def getBucket : DeclareConfig → Option BucketResource
  | .bucket b => some b
  | _ => none

/-- Embeds `req.GetCollection()`. -/
def getCollection : DeclareConfig → Option CollectionResource
  | .collection c => some c
  | _ => none

/-- Embeds `req.GetApi()`. -/
def getApi : DeclareConfig → Option ApiResource
  | .api a => some a
  | _ => none

/-- Embeds `req.GetApiSecurityDefinition()`. -/
def getApiSecurityDefinition : DeclareConfig → Option ApiSecurityDefinitionResource
  | .apiSecurityDefinition d => some d
  | _ => none

/-- Embeds `req.GetSecret()`. -/
def getSecret : DeclareConfig → Option SecretResource
  | .secret s => some s
  | _ => none

/-- Embeds `req.GetPolicy()`. -/
def getPolicy : DeclareConfig → Option PolicyResource
  | .policy p => some p
  | _ => none

/-- Embeds `req.GetTopic()`. -/
def getTopic : DeclareConfig → Option TopicResource
  | .topic t => some t
  | _ => none

end DeclareConfig

/-- Embeds `resourcespb.ResourceDeclareRequest`. -/
structure ResourceDeclareRequest where
  resource : Resource
  config : DeclareConfig
deriving DecidableEq

/-- Embeds `resourcespb.ResourceDeclareResponse` (an empty acknowledgment). -/
structure ResourceDeclareResponse
deriving DecidableEq

/-- Embeds `httppb.HttpProxyRequest`: the collector stores it whole. -/
structure HttpProxyRequest where
  host : String
  tag : Nat
deriving DecidableEq

/-- Embeds `httppb.HttpProxyResponse` (an empty acknowledgment). -/
structure HttpProxyResponse
deriving DecidableEq

/-- Embeds `apispb.RegistrationRequest`: API route registration. -/
structure ApiRegistrationRequest where
  api : String
  methods : List String
  path : String
  tag : Nat
deriving DecidableEq

/-- Embeds `schedulespb.RegistrationRequest`: schedule registration. -/
structure ScheduleRegistrationRequest where
  scheduleName : String
  tag : Nat
deriving DecidableEq

/-- Embeds `topicspb.RegistrationRequest`: topic subscription registration. -/
structure SubscriptionRegistrationRequest where
  topicName : String
  tag : Nat
deriving DecidableEq

/-- Embeds `websocketspb.RegistrationRequest`: websocket handler registration;
`eventType` embeds the `WebsocketEventType` enum. -/
structure WebsocketRegistrationRequest where
  socketName : String
  eventType : Nat
  tag : Nat
deriving DecidableEq

/-- Embeds `storagepb.RegistrationRequest`: storage bucket listener registration. -/
structure StorageRegistrationRequest where
  bucketName : String
  tag : Nat
deriving DecidableEq

/-- First client message on a registration stream: either a registration
request (`GetRegistrationRequest() != nil`) or some other frame. -/
inductive ClientMessage (R : Type) where
  | registrationRequest (r : R)
  | other (tag : Nat)
deriving DecidableEq

/-- Server message sent back on a registration stream. -/
inductive ServerMessage where
  | registrationResponse
  | other (tag : Nat)
deriving DecidableEq

/-- Embeds `collector.ServiceRequirements`: the per-service requirements
aggregate.  Map-valued fields store what the Go code stores (possibly-nil
protobuf pointers become `Option`); `errors` collects the conflict error
messages in order. -/
structure ServiceRequirements where
  serviceName : String
  serviceType : String
  routes : SMap (List ApiRegistrationRequest)
  schedules : SMap ScheduleRegistrationRequest
  subscriptions : SMap (List SubscriptionRegistrationRequest)
  websockets : SMap (List WebsocketRegistrationRequest)
  listeners : SMap StorageRegistrationRequest
  proxy : Option HttpProxyRequest
  apis : SMap (Option ApiResource)
  apiSecurityDefinition : SMap (SMap (Option ApiSecurityDefinitionResource))
  buckets : SMap (Option BucketResource)
  collections : SMap (Option CollectionResource)
  topics : SMap (Option TopicResource)
  policies : SMap (Option PolicyResource)
  secrets : SMap (Option SecretResource)
  errors : List String
deriving DecidableEq

/-- Embeds `collector.NewServiceRequirements`: fresh aggregate; `serviceType`
defaults to `"default"` when empty. -/
def NewServiceRequirements (serviceName serviceType : String) : ServiceRequirements :=
  { serviceName := serviceName
    serviceType := if serviceType = "" then "default" else serviceType
    routes := []
    schedules := []
    subscriptions := []
    websockets := []
    listeners := []
    proxy := none
    apis := []
    apiSecurityDefinition := []
    buckets := []
    collections := []
    topics := []
    policies := []
    secrets := []
    errors := [] }

namespace ServiceRequirements

/-- Embeds `ServiceRequirements.WorkerCount`: `len(lo.Values(m))` is the number
of entries of the map `m`, so the count is the sum of the five maps'
sizes. -/
def WorkerCount (s : ServiceRequirements) : Nat :=
  s.routes.length + s.listeners.length + s.schedules.length +
    s.subscriptions.length + s.websockets.length

/-- The principal rewrite the `Policy` arm of `Declare` performs on a
principal list that is present: any principal with empty name and
`Function` type gets the service's name. -/
def backfillPrincipal (serviceName : String) (pr : Resource) : Resource :=
  if pr.name = "" ∧ pr.type = .Function then { pr with name := serviceName } else pr

/-- Embeds `ServiceRequirements.Declare`: unary resource declaration, dispatching
on the declared resource type; unhandled types fall through the `switch`
unchanged.  The `Policy` arm writes through `req.GetPolicy()`; when that
getter is `nil` the Go code dereferences a nil pointer (`.error` here). -/
def Declare (s : ServiceRequirements) (req : ResourceDeclareRequest) :
    Except String (ServiceRequirements × ResourceDeclareResponse) :=
  match req.resource.type with
  | .Bucket =>
      .ok ({ s with buckets := s.buckets.upd req.resource.name req.config.getBucket }, ⟨⟩)
  | .Collection =>
      .ok ({ s with collections := s.collections.upd req.resource.name req.config.getCollection }, ⟨⟩)
  | .Api =>
      .ok ({ s with apis := s.apis.upd req.resource.name req.config.getApi }, ⟨⟩)
  | .ApiSecurityDefinition =>
      let apiName := ((req.config.getApiSecurityDefinition).map (fun d => d.apiName)).getD ""
      let inner := (s.apiSecurityDefinition.lookupM apiName).getD []
      .ok ({ s with apiSecurityDefinition := s.apiSecurityDefinition.upd apiName (inner.upd req.resource.name req.config.getApiSecurityDefinition) }, ⟨⟩)
  | .Secret =>
      .ok ({ s with secrets := s.secrets.upd req.resource.name req.config.getSecret }, ⟨⟩)
  | .Policy =>
      match req.config.getPolicy with
      | none => .error "panic: nil pointer dereference"
      | some pol =>
          let pol' :=
            if pol.principals = [] then
              { pol with principals := [{ name := s.serviceName, type := .Function }] }
            else
              { pol with principals := pol.principals.map (backfillPrincipal s.serviceName) }
          .ok ({ s with policies := s.policies.upd req.resource.name (some pol') }, ⟨⟩)
  | .Topic =>
      .ok ({ s with topics := s.topics.upd req.resource.name req.config.getTopic }, ⟨⟩)
  | _ => .ok (s, ⟨⟩)

/-- Error message of `Proxy` when routes already exist. -/
def proxyRoutesErr : String :=
  "cannot register HTTP proxy, API routes have already been registered"

/-- Error message of `Proxy` when a proxy already exists. -/
def proxyDupErr : String :=
  "cannot register HTTP proxy, another proxy has already been registered"

/-- Embeds `ServiceRequirements.Proxy`: records soft conflict errors when routes
or a proxy already exist, then stores the request unconditionally and
acknowledges. -/
def Proxy (s : ServiceRequirements) (req : HttpProxyRequest) :
    Except String (ServiceRequirements × HttpProxyResponse) :=
  let errs1 := if s.routes.length > 0 then s.errors ++ [proxyRoutesErr] else s.errors
  let errs2 := if s.proxy.isSome then errs1 ++ [proxyDupErr] else errs1
  .ok ({ s with errors := errs2, proxy := some req }, ⟨⟩)

/-- The duplicate-route test of `Serve` (`lo.Find` predicate):
overlapping method sets and identical path. -/
def routeConflictsWith (incoming existing : ApiRegistrationRequest) : Bool :=
  (existing.methods.any (fun m => incoming.methods.contains m)) &&
    existing.path == incoming.path

/-- Embeds `ServiceRequirements.Serve`: API route registration.  The argument is
the result of the stream's first `Recv`; the result carries the state
after the handler plus the message it sends. -/
def Serve (s : ServiceRequirements) (first : Except String (ClientMessage ApiRegistrationRequest)) :
    Except String (ServiceRequirements × ServerMessage) :=
  match first with
  | .error e => .error e
  | .ok (.other _) => .error "first message must be a registration request"
  | .ok (.registrationRequest reg) =>
      match ((s.routes.lookupM reg.api).getD []).find? (routeConflictsWith reg) with
      | some existingRoute =>
          .ok ({ s with errors := s.errors ++
                  ["route already registered: " ++ existingRoute.api ++ " " ++ existingRoute.path] },
               .registrationResponse)
      | none =>
          .ok ({ s with routes := s.routes.appendTo reg.api reg }, .registrationResponse)

/-- Embeds `ServiceRequirements.Schedule`: schedule registration; a duplicate
name records a conflict error and the new registration still overwrites. -/
def Schedule (s : ServiceRequirements)
    (first : Except String (ClientMessage ScheduleRegistrationRequest)) :
    Except String (ServiceRequirements × ServerMessage) :=
  match first with
  | .error e => .error e
  | .ok (.other _) => .error "first message must be a registration request"
  | .ok (.registrationRequest reg) =>
      let errs :=
        if (s.schedules.lookupM reg.scheduleName).isSome then
          s.errors ++ ["schedule already registered: " ++ reg.scheduleName]
        else s.errors
      .ok ({ s with errors := errs, schedules := s.schedules.upd reg.scheduleName reg }, .registrationResponse)

/-- Embeds `ServiceRequirements.Subscribe`: topic subscription registration;
always appended, no duplicate test. -/
def Subscribe (s : ServiceRequirements)
    (first : Except String (ClientMessage SubscriptionRegistrationRequest)) :
    Except String (ServiceRequirements × ServerMessage) :=
  match first with
  | .error e => .error e
  | .ok (.other _) => .error "first message must be a registration request"
  | .ok (.registrationRequest reg) =>
      .ok ({ s with subscriptions := s.subscriptions.appendTo reg.topicName reg },
           .registrationResponse)

/-- Embeds `ServiceRequirements.Listen`: storage bucket listener registration.
The Go code tests the *declared buckets* map (`s.buckets`), not the
listeners map, and only stores the listener when the bucket name is not
a declared bucket resource.  (Its malformed-first-message error text is
the truncated `"first "` of the source.) -/
def Listen (s : ServiceRequirements)
    (first : Except String (ClientMessage StorageRegistrationRequest)) :
    Except String (ServiceRequirements × ServerMessage) :=
  match first with
  | .error e => .error e
  | .ok (.other _) => .error "first "
  | .ok (.registrationRequest reg) =>
      if (s.buckets.lookupM reg.bucketName).isSome then
        .ok ({ s with errors := s.errors ++
                ["bucket already registered: " ++ reg.bucketName] }, .registrationResponse)
      else
        .ok ({ s with listeners := s.listeners.upd reg.bucketName reg }, .registrationResponse)

/-- Embeds `ServiceRequirements.HandleEvents`: websocket handler registration; a
handler with the same event type on the same socket is a conflict. -/
def HandleEvents (s : ServiceRequirements)
    (first : Except String (ClientMessage WebsocketRegistrationRequest)) :
    Except String (ServiceRequirements × ServerMessage) :=
  match first with
  | .error e => .error e
  | .ok (.other _) => .error "first message must be a registration request"
  | .ok (.registrationRequest reg) =>
      match ((s.websockets.lookupM reg.socketName).getD []).find?
          (fun item => item.eventType == reg.eventType) with
      | some existingSocketHandler =>
          .ok ({ s with errors := s.errors ++
                  ["websocket handler already registered: " ++ existingSocketHandler.socketName
                    ++ " " ++ toString existingSocketHandler.eventType] }, .registrationResponse)
      | none =>
          .ok ({ s with websockets := s.websockets.appendTo reg.socketName reg },
               .registrationResponse)

end ServiceRequirements

namespace Provider

/-- Embeds `os.FileMode` as seen by `exec.go`: whether the mode denotes a
regular file (`IsRegular`) and its permission bits (`Perm()`, 9 bits). -/
structure FileMode where
  isRegular : Bool
  perm : Nat
deriving DecidableEq

/-- Embeds `isExecAny`: on `"windows"` any regular file counts as
executable; elsewhere the file must be regular with at least one of the
`0o111` execute bits set. -/
def isExecAny (goos : String) (mode : FileMode) : Bool :=
  if goos = "windows" then mode.isRegular
  else mode.isRegular && (Nat.land mode.perm 0o111 != 0)

/-- Embeds the `afero.Fs` collaborator: only `Stat` is consumed, and only
the file mode of its result; a stat failure is the `.error` case. -/
structure Fs where
  stat : String → Except String FileMode

/-- Oracles for the OS primitives `startProcess` consumes:
`utils.GetNextListener` (an allocated loopback port, or an error),
`lis.Close()`, and `cmd.Start()` (a process id, or a launch error). -/
structure OsEnv where
  nextListener : Except String Nat
  closeErr : Option String
  startResult : Except String Nat

/-- Embeds `provider.ProviderProcess`: executable path, optional live
process handle (a pid), environment overrides, assigned address. -/
structure ProviderProcess where
  providerPath : String
  process : Option Nat
  envMap : SMap String
  Address : String
deriving DecidableEq

/-- Embeds `ProviderProcess.startProcess`: allocates a port, records the
address and the `PORT` environment entry, closes the probe listener, then
launches; the process handle is assigned only after a successful launch.
(The Go receiver is mutated in place even on failure, but the only caller
discards the receiver on failure, so the failing branches return just the
error.) -/
def startProcess (p : ProviderProcess) (os : OsEnv) : Except String ProviderProcess :=
  match os.nextListener with
  | .error e => .error e
  | .ok port =>
      let p1 := { p with Address := "127.0.0.1:" ++ toString port, envMap := p.envMap.upd "PORT" (toString port) }
      match os.closeErr with
      | some e => .error e
      | none =>
          match os.startResult with
          | .error e => .error e
          | .ok pid => .ok { p1 with process := some pid }

/-- Embeds `provider.StartProviderExecutable`: stats the path, requires an
executable mode, then constructs the supervisor and launches the process.
An `.error` result carries no `ProviderProcess`, mirroring the Go `nil`
return on every failure path. -/
def StartProviderExecutable (goos : String) (fs : Fs) (os : OsEnv) (executablePath : String) :
    Except String ProviderProcess :=
  match fs.stat executablePath with
  | .error e => .error e
  | .ok mode =>
      if !isExecAny goos mode then .error "provider binary is not executable"
      else
        startProcess { providerPath := executablePath, process := none, envMap := [], Address := "" } os

/-- Embeds `ProviderProcess.Stop`: kills the held process, wrapping a kill
failure; a missing handle is a successful no-op.  `kill` is the per-pid
outcome of `os.Process.Kill`.  The Go method never mutates its receiver
(in particular it does not clear the handle), so the unchanged record is
returned for reasoning about repeated calls. -/
def ProviderProcess.Stop (p : ProviderProcess) (kill : Nat → Option String) :
    Except String ProviderProcess :=
  match p.process with
  | some pid =>
      match kill pid with
      | some e => .error ("failed to stop provider: " ++ e)
      | none => .ok p
  | none => .ok p

end Provider

/-- Pairwise-distinct keys of an association-list map (automatic for a Go
map). -/
abbrev keysNodup {V : Type} (m : SMap V) : Prop := (m.map Prod.fst).Nodup

/-- States of the aggregate reachable through the collector's handlers:
every map has pairwise-distinct keys, and the slice-valued maps never hold
an empty slice (the handlers only ever `append` a first element together
with the key). -/
abbrev WF (s : ServiceRequirements) : Prop :=
  keysNodup s.routes ∧ (∀ p ∈ s.routes, p.2 ≠ []) ∧
  keysNodup s.schedules ∧
  keysNodup s.subscriptions ∧ (∀ p ∈ s.subscriptions, p.2 ≠ []) ∧
  keysNodup s.websockets ∧ (∀ p ∈ s.websockets, p.2 ≠ []) ∧
  keysNodup s.listeners

/-- Worker count as the specification words it: the number of APIs with at
least one route, of distinct storage listeners, of distinct schedules, of
topics with at least one subscription, and of sockets with at least one
websocket handler. -/
def specWorkerCount (s : ServiceRequirements) : Nat :=
  ((s.routes.filter (fun p => !p.2.isEmpty)).map Prod.fst).dedup.length +
    (s.listeners.map Prod.fst).dedup.length +
    (s.schedules.map Prod.fst).dedup.length +
    ((s.subscriptions.filter (fun p => !p.2.isEmpty)).map Prod.fst).dedup.length +
    ((s.websockets.filter (fun p => !p.2.isEmpty)).map Prod.fst).dedup.length

/-! Concrete fixtures used by counterexamples and witnesses. -/

/-- A fresh aggregate for the service `"svc"` (default service type). -/
def emptyReqs : ServiceRequirements := NewServiceRequirements "svc" ""

/-- A route registration on API `"main"`, methods GET and POST, path `/a`. -/
def sampleRoute : ApiRegistrationRequest :=
  { api := "main", methods := ["GET", "POST"], path := "/a", tag := 0 }

/-- A second registration overlapping `sampleRoute` (method POST, same path). -/
def sampleRoute2 : ApiRegistrationRequest :=
  { api := "main", methods := ["POST"], path := "/a", tag := 1 }

/-- A registration on the same API with a different path (no conflict). -/
def sampleRouteOther : ApiRegistrationRequest :=
  { api := "main", methods := ["DELETE"], path := "/b", tag := 2 }

/-- An aggregate that already holds one registered API route. -/
def routedReqs : ServiceRequirements := { emptyReqs with routes := [("main", [sampleRoute])] }

/-- The first proxy request. -/
def proxyReqA : HttpProxyRequest := { host := "a.example", tag := 0 }

/-- A distinct second proxy request. -/
def proxyReqB : HttpProxyRequest := { host := "b.example", tag := 1 }

/-- An aggregate that already holds proxy `proxyReqA`. -/
def proxiedReqs : ServiceRequirements := { emptyReqs with proxy := some proxyReqA }

/-- A storage listener registration for bucket `"imgs"`. -/
def listenReg1 : StorageRegistrationRequest := { bucketName := "imgs", tag := 0 }

/-- A second storage listener registration for bucket `"imgs"`. -/
def listenReg2 : StorageRegistrationRequest := { bucketName := "imgs", tag := 1 }

/-- An aggregate that already holds a listener for bucket `"imgs"` (the
bucket resource itself was never declared). -/
def listenedReqs : ServiceRequirements := { emptyReqs with listeners := [("imgs", listenReg1)] }

/-- An aggregate where bucket `"imgs"` was declared via `Declare` but no
listener is registered. -/
def declaredBucketReqs : ServiceRequirements :=
  { emptyReqs with buckets := [("imgs", some { tag := 7 })] }

/-- A schedule registration named `"nightly"`. -/
def schedReg1 : ScheduleRegistrationRequest := { scheduleName := "nightly", tag := 0 }

/-- A second schedule registration under the same name. -/
def schedReg2 : ScheduleRegistrationRequest := { scheduleName := "nightly", tag := 1 }

/-- An aggregate that already holds the schedule `"nightly"`. -/
def scheduledReqs : ServiceRequirements := { emptyReqs with schedules := [("nightly", schedReg1)] }

/-- An aggregate exercising every summand of the worker count. -/
def workerReqs : ServiceRequirements :=
  { emptyReqs with
    routes := [("main", [sampleRoute]), ("admin", [sampleRouteOther])],
    schedules := [("nightly", schedReg1)],
    subscriptions := [("updates", [{ topicName := "updates", tag := 0 }])],
    websockets := [("chat", [{ socketName := "chat", eventType := 0, tag := 0 }])],
    listeners := [("imgs", listenReg1)] }

/-- A bucket declaration request named `"store"`. -/
def bucketDeclReq : ResourceDeclareRequest :=
  { resource := { name := "store", type := .Bucket }, config := .bucket { tag := 2 } }

/-- An aggregate where bucket `"store"` is already declared (with an older
definition) and one error is already logged. -/
def predeclaredReqs : ServiceRequirements :=
  { emptyReqs with buckets := [("store", some { tag := 1 })], errors := ["earlier"] }

/-- The aggregate `Declare` produces from `predeclaredReqs` and
`bucketDeclReq`: only the buckets map changes. -/
def predeclaredAfter : ServiceRequirements :=
  { predeclaredReqs with buckets := predeclaredReqs.buckets.upd "store" (some { tag := 2 }) }

/-- A declaration request of the unhandled kind `Websocket`. -/
def websocketDeclReq : ResourceDeclareRequest :=
  { resource := { name := "sock", type := .Websocket }, config := .unspecified }

/-- A policy declaration carrying no principals. -/
def policyNoPrincipals : ResourceDeclareRequest :=
  { resource := { name := "pol", type := .Policy },
    config := .policy { principals := [], actions := [3], resources := [{ name := "store", type := .Bucket }] } }

/-- A policy declaration with one empty-named service principal and one
named non-service principal. -/
def policyWithPrincipals : ResourceDeclareRequest :=
  { resource := { name := "pol2", type := .Policy },
    config := .policy { principals := [{ name := "", type := .Function }, { name := "store", type := .Bucket }],
                        actions := [4], resources := [] } }

/-- A filesystem where the path is missing. -/
def fsMissing : Provider.Fs := ⟨fun _ => .error "stat /x: no such file or directory"⟩

/-- A filesystem holding a regular, non-executable file (mode 0644). -/
def fsNonExec : Provider.Fs := ⟨fun _ => .ok { isRegular := true, perm := 0o644 }⟩

/-- A filesystem holding a regular, executable file (mode 0755). -/
def fsExec : Provider.Fs := ⟨fun _ => .ok { isRegular := true, perm := 0o755 }⟩

/-- OS oracles where port allocation and close succeed but the launch
fails. -/
def osLaunchFail : Provider.OsEnv :=
  { nextListener := .ok 50051, closeErr := none, startResult := .error "fork/exec ./prov: exec format error" }

/-- OS oracles where everything succeeds (pid 321). -/
def osLaunchOk : Provider.OsEnv :=
  { nextListener := .ok 50051, closeErr := none, startResult := .ok 321 }

/-- A supervisor holding a live process handle (pid 321). -/
def runningProc : Provider.ProviderProcess :=
  { providerPath := "./prov", process := some 321, envMap := [("PORT", "50051")], Address := "127.0.0.1:50051" }

/-- A supervisor holding no process handle. -/
def stoppedProc : Provider.ProviderProcess :=
  { providerPath := "./prov", process := none, envMap := [], Address := "" }

/-- A kill oracle under which every kill succeeds. -/
def killOk : Nat → Option String := fun _ => none

/-- A kill oracle under which pid 321 cannot be killed. -/
def killFail : Nat → Option String := fun pid => if pid = 321 then some "operation not permitted" else none

end GoCli

namespace GoCli

/-! Helper lemmas shared across the claim theorems. -/

/-- Reading back the key just written returns the new value. -/
theorem SMap.lookupM_upd_self {V : Type} (m : SMap V) (k : String) (v : V) :
    (m.upd k v).lookupM k = some v := by
  simp [SMap.upd, SMap.lookupM]

/-- Filtering out one key does not change lookups of any other key. -/
theorem SMap.lookupM_filter_ne {V : Type} (m : SMap V) (k k' : String) (h : k' ≠ k) :
    SMap.lookupM (m.filter (fun p => p.1 ≠ k)) k' = SMap.lookupM m k' := by
  induction m with
  | nil => rfl
  | cons p rest ih =>
      by_cases hpk : p.1 = k
      · rw [List.filter_cons_of_neg (by simp [hpk])]
        have hcons : SMap.lookupM (p :: rest) k' = SMap.lookupM rest k' := by
          simp only [SMap.lookupM]
          rw [if_neg (fun hq => h (hq.symm.trans hpk))]
        rw [ih, hcons]
      · rw [List.filter_cons_of_pos (by simp [hpk])]
        simp only [SMap.lookupM]
        by_cases hpk' : p.1 = k'
        · rw [if_pos hpk', if_pos hpk']
        · rw [if_neg hpk', if_neg hpk']
          exact ih

/-- Writing one key does not change lookups of any other key. -/
theorem SMap.lookupM_upd_ne {V : Type} (m : SMap V) (k k' : String) (v : V) (h : k' ≠ k) :
    (m.upd k v).lookupM k' = m.lookupM k' := by
  unfold SMap.upd
  simp only [SMap.lookupM]
  rw [if_neg (fun hq => h hq.symm)]
  exact SMap.lookupM_filter_ne m k k' h

/-- Deduplicating the keys of a map with pairwise-distinct keys counts its
entries. -/
theorem dedup_keys_length {V : Type} (m : SMap V) (h : keysNodup m) :
    (m.map Prod.fst).dedup.length = m.length := by
  rw [List.dedup_eq_self.mpr h, List.length_map]

/-- Filtering away empty-slice entries of a map that has none is the
identity. -/
theorem filter_ne_nil_eq_self {V : Type} (m : SMap (List V)) (h : ∀ p ∈ m, p.2 ≠ []) :
    m.filter (fun p => !p.2.isEmpty) = m := by
  apply List.filter_eq_self.mpr
  intro a ha
  simpa using h a ha

/-- Updating a key preserves pairwise-distinct keys. -/
theorem keysNodup_upd {V : Type} (m : SMap V) (k : String) (v : V) (h : keysNodup m) :
    keysNodup (m.upd k v) := by
  have hsub : ((m.filter (fun p => p.1 ≠ k)).map Prod.fst).Nodup :=
    List.Nodup.sublist (List.Sublist.map _ (List.filter_sublist m)) h
  have hnot : k ∉ (m.filter (fun p => p.1 ≠ k)).map Prod.fst := by
    intro hk
    obtain ⟨p, hp, hpk⟩ := List.mem_map.mp hk
    have hmem := List.mem_filter.mp hp
    have hne : ¬ p.1 = k := by simpa using hmem.2
    exact hne hpk
  show (((k, v) :: m.filter (fun p => p.1 ≠ k)).map Prod.fst).Nodup
  rw [List.map_cons, List.nodup_cons]
  exact ⟨hnot, hsub⟩

/-- Appending to a slice-valued map never creates an empty slice. -/
theorem values_ne_nil_appendTo {V : Type} (m : SMap (List V)) (k : String) (v : V)
    (h : ∀ p ∈ m, p.2 ≠ []) : ∀ p ∈ m.appendTo k v, p.2 ≠ [] := by
  intro p hp
  unfold SMap.appendTo SMap.upd at hp
  rcases List.mem_cons.mp hp with rfl | hp'
  · simp
  · exact h p (List.mem_of_mem_filter hp')

/-- Every successful `Declare` call leaves the five trigger maps, the
proxy field and the error log unchanged, whatever the resource kind. -/
theorem Declare_keeps_trigger_state (s : ServiceRequirements) (req : ResourceDeclareRequest)
    (s' : ServiceRequirements) (resp : ResourceDeclareResponse)
    (h : ServiceRequirements.Declare s req = .ok (s', resp)) :
    s'.routes = s.routes ∧ s'.schedules = s.schedules ∧ s'.subscriptions = s.subscriptions ∧
    s'.websockets = s.websockets ∧ s'.listeners = s.listeners ∧ s'.proxy = s.proxy ∧
    s'.errors = s.errors := by
  rcases req with ⟨⟨name, ty⟩, cfg⟩
  cases ty <;> cases cfg <;>
    simp only [ServiceRequirements.Declare, DeclareConfig.getPolicy, Except.ok.injEq,
      Prod.mk.injEq] at h <;>
    try (obtain ⟨h1, h2⟩ := h; subst h1; exact ⟨rfl, rfl, rfl, rfl, rfl, rfl, rfl⟩)
  all_goals simp at h

/-- A fresh aggregate is well-formed. -/
theorem WF_new (n t : String) : WF (NewServiceRequirements n t) := by
  refine ⟨?_, ?_, ?_, ?_, ?_, ?_, ?_, ?_⟩ <;> simp [NewServiceRequirements, keysNodup]

/-- `Serve` preserves well-formedness. -/
theorem WF_Serve (s : ServiceRequirements)
    (first : Except String (ClientMessage ApiRegistrationRequest))
    (s' : ServiceRequirements) (msg : ServerMessage)
    (h : ServiceRequirements.Serve s first = .ok (s', msg)) (hw : WF s) : WF s' := by
  obtain ⟨hr, hrne, hsch, hsub, hsubne, hwn, hwne, hl⟩ := hw
  cases first with
  | error e => simp [ServiceRequirements.Serve] at h
  | ok m =>
    cases m with
    | other t => simp [ServiceRequirements.Serve] at h
    | registrationRequest reg =>
      simp only [ServiceRequirements.Serve] at h
      split at h
      · simp only [Except.ok.injEq, Prod.mk.injEq] at h
        obtain ⟨h1, h2⟩ := h
        subst h1
        exact ⟨hr, hrne, hsch, hsub, hsubne, hwn, hwne, hl⟩
      · simp only [Except.ok.injEq, Prod.mk.injEq] at h
        obtain ⟨h1, h2⟩ := h
        subst h1
        exact ⟨keysNodup_upd _ _ _ hr, values_ne_nil_appendTo _ _ _ hrne, hsch, hsub, hsubne,
          hwn, hwne, hl⟩

/-- `Schedule` preserves well-formedness. -/
theorem WF_Schedule (s : ServiceRequirements)
    (first : Except String (ClientMessage ScheduleRegistrationRequest))
    (s' : ServiceRequirements) (msg : ServerMessage)
    (h : ServiceRequirements.Schedule s first = .ok (s', msg)) (hw : WF s) : WF s' := by
  obtain ⟨hr, hrne, hsch, hsub, hsubne, hwn, hwne, hl⟩ := hw
  cases first with
  | error e => simp [ServiceRequirements.Schedule] at h
  | ok m =>
    cases m with
    | other t => simp [ServiceRequirements.Schedule] at h
    | registrationRequest reg =>
      unfold ServiceRequirements.Schedule at h
      simp only [Except.ok.injEq, Prod.mk.injEq] at h
      obtain ⟨h1, h2⟩ := h
      subst h1
      exact ⟨hr, hrne, keysNodup_upd _ _ _ hsch, hsub, hsubne, hwn, hwne, hl⟩

/-- `Subscribe` preserves well-formedness. -/
theorem WF_Subscribe (s : ServiceRequirements)
    (first : Except String (ClientMessage SubscriptionRegistrationRequest))
    (s' : ServiceRequirements) (msg : ServerMessage)
    (h : ServiceRequirements.Subscribe s first = .ok (s', msg)) (hw : WF s) : WF s' := by
  obtain ⟨hr, hrne, hsch, hsub, hsubne, hwn, hwne, hl⟩ := hw
  cases first with
  | error e => simp [ServiceRequirements.Subscribe] at h
  | ok m =>
    cases m with
    | other t => simp [ServiceRequirements.Subscribe] at h
    | registrationRequest reg =>
      unfold ServiceRequirements.Subscribe at h
      simp only [Except.ok.injEq, Prod.mk.injEq] at h
      obtain ⟨h1, h2⟩ := h
      subst h1
      exact ⟨hr, hrne, hsch, keysNodup_upd _ _ _ hsub, values_ne_nil_appendTo _ _ _ hsubne,
        hwn, hwne, hl⟩

/-- `Listen` preserves well-formedness. -/
theorem WF_Listen (s : ServiceRequirements)
    (first : Except String (ClientMessage StorageRegistrationRequest))
    (s' : ServiceRequirements) (msg : ServerMessage)
    (h : ServiceRequirements.Listen s first = .ok (s', msg)) (hw : WF s) : WF s' := by
  obtain ⟨hr, hrne, hsch, hsub, hsubne, hwn, hwne, hl⟩ := hw
  cases first with
  | error e => simp [ServiceRequirements.Listen] at h
  | ok m =>
    cases m with
    | other t => simp [ServiceRequirements.Listen] at h
    | registrationRequest reg =>
      simp only [ServiceRequirements.Listen] at h
      split at h
      · simp only [Except.ok.injEq, Prod.mk.injEq] at h
        obtain ⟨h1, h2⟩ := h
        subst h1
        exact ⟨hr, hrne, hsch, hsub, hsubne, hwn, hwne, hl⟩
      · simp only [Except.ok.injEq, Prod.mk.injEq] at h
        obtain ⟨h1, h2⟩ := h
        subst h1
        exact ⟨hr, hrne, hsch, hsub, hsubne, hwn, hwne, keysNodup_upd _ _ _ hl⟩

/-- `HandleEvents` preserves well-formedness. -/
theorem WF_HandleEvents (s : ServiceRequirements)
    (first : Except String (ClientMessage WebsocketRegistrationRequest))
    (s' : ServiceRequirements) (msg : ServerMessage)
    (h : ServiceRequirements.HandleEvents s first = .ok (s', msg)) (hw : WF s) : WF s' := by
  obtain ⟨hr, hrne, hsch, hsub, hsubne, hwn, hwne, hl⟩ := hw
  cases first with
  | error e => simp [ServiceRequirements.HandleEvents] at h
  | ok m =>
    cases m with
    | other t => simp [ServiceRequirements.HandleEvents] at h
    | registrationRequest reg =>
      simp only [ServiceRequirements.HandleEvents] at h
      split at h
      · simp only [Except.ok.injEq, Prod.mk.injEq] at h
        obtain ⟨h1, h2⟩ := h
        subst h1
        exact ⟨hr, hrne, hsch, hsub, hsubne, hwn, hwne, hl⟩
      · simp only [Except.ok.injEq, Prod.mk.injEq] at h
        obtain ⟨h1, h2⟩ := h
        subst h1
        exact ⟨hr, hrne, hsch, hsub, hsubne, keysNodup_upd _ _ _ hwn,
          values_ne_nil_appendTo _ _ _ hwne, hl⟩

/-- `Proxy` preserves well-formedness. -/
theorem WF_Proxy (s : ServiceRequirements) (req : HttpProxyRequest)
    (s' : ServiceRequirements) (resp : HttpProxyResponse)
    (h : ServiceRequirements.Proxy s req = .ok (s', resp)) (hw : WF s) : WF s' := by
  obtain ⟨hr, hrne, hsch, hsub, hsubne, hwn, hwne, hl⟩ := hw
  unfold ServiceRequirements.Proxy at h
  simp only [Except.ok.injEq, Prod.mk.injEq] at h
  obtain ⟨h1, h2⟩ := h
  subst h1
  exact ⟨hr, hrne, hsch, hsub, hsubne, hwn, hwne, hl⟩

/-- `Declare` preserves well-formedness. -/
theorem WF_Declare (s : ServiceRequirements) (req : ResourceDeclareRequest)
    (s' : ServiceRequirements) (resp : ResourceDeclareResponse)
    (h : ServiceRequirements.Declare s req = .ok (s', resp)) (hw : WF s) : WF s' := by
  obtain ⟨f1, f2, f3, f4, f5, f6, f7⟩ := Declare_keeps_trigger_state s req s' resp h
  obtain ⟨hr, hrne, hsch, hsub, hsubne, hwn, hwne, hl⟩ := hw
  refine ⟨?_, ?_, ?_, ?_, ?_, ?_, ?_, ?_⟩
  · rw [f1]; exact hr
  · rw [f1]; exact hrne
  · rw [f2]; exact hsch
  · rw [f3]; exact hsub
  · rw [f3]; exact hsubne
  · rw [f4]; exact hwn
  · rw [f4]; exact hwne
  · rw [f5]; exact hl

/-! Claim theorems. -/

/-- C9: `Stop` sends a forced kill exactly when a process handle is held,
wraps a kill failure, succeeds as a no-op without a handle, and — since it
never mutates the supervisor — a second `Stop` after a successful one also
succeeds. -/
theorem stop_kill_wrap_noop_idempotent (p : Provider.ProviderProcess)
    (kill : Nat → Option String) :
    (p.process = none → Provider.ProviderProcess.Stop p kill = .ok p) ∧
    (∀ pid, p.process = some pid → kill pid = none →
      Provider.ProviderProcess.Stop p kill = .ok p) ∧
    (∀ pid e, p.process = some pid → kill pid = some e →
      Provider.ProviderProcess.Stop p kill = .error ("failed to stop provider: " ++ e)) ∧
    (∀ p', Provider.ProviderProcess.Stop p kill = .ok p' →
      Provider.ProviderProcess.Stop p' kill = .ok p') := by
  refine ⟨?_, ?_, ?_, ?_⟩
  · intro h
    simp [Provider.ProviderProcess.Stop, h]
  · intro pid h hk
    simp [Provider.ProviderProcess.Stop, h, hk]
  · intro pid e h hk
    simp [Provider.ProviderProcess.Stop, h, hk]
  · intro p' h
    have hp : p' = p := by
      unfold Provider.ProviderProcess.Stop at h
      cases hpp : p.process with
      | none => rw [hpp] at h; cases h; rfl
      | some pid =>
          rw [hpp] at h
          cases hk : kill pid with
          | none => simp [hk] at h; exact h.symm
          | some e => simp [hk] at h
    subst hp
    exact h

/-- C9 witness: a running supervisor stops cleanly, twice; a kill failure
is wrapped; a handleless supervisor is a no-op. -/
theorem stop_kill_wrap_noop_idempotent_witness :
    Provider.ProviderProcess.Stop runningProc killOk = .ok runningProc ∧
    Provider.ProviderProcess.Stop runningProc killFail =
      .error "failed to stop provider: operation not permitted" ∧
    Provider.ProviderProcess.Stop stoppedProc killOk = .ok stoppedProc := by
  refine ⟨?_, ?_, ?_⟩
  · exact (stop_kill_wrap_noop_idempotent runningProc killOk).2.1 321 rfl rfl
  · exact (stop_kill_wrap_noop_idempotent runningProc killFail).2.2.1 321
      "operation not permitted" rfl rfl
  · exact (stop_kill_wrap_noop_idempotent stoppedProc killOk).1 rfl

/-- C8: `StartProviderExecutable` propagates a stat failure, rejects a
file that is not executable for its platform (returning `.error`, which by
construction carries no process handle), treats any regular file as
executable on Windows, and propagates a launch failure (again holding no
process handle, as the Go code returns `nil` alongside the error). -/
theorem start_provider_error_paths (goos : String) (fs : Provider.Fs)
    (os : Provider.OsEnv) (path : String) :
    (∀ e, fs.stat path = .error e →
      Provider.StartProviderExecutable goos fs os path = .error e) ∧
    (∀ mode, fs.stat path = .ok mode → Provider.isExecAny goos mode = false →
      Provider.StartProviderExecutable goos fs os path = .error "provider binary is not executable") ∧
    (∀ mode, mode.isRegular = true → Provider.isExecAny "windows" mode = true) ∧
    (∀ mode port, fs.stat path = .ok mode → Provider.isExecAny goos mode = true →
      os.nextListener = .ok port → os.closeErr = none →
      ∀ e, os.startResult = .error e →
        Provider.StartProviderExecutable goos fs os path = .error e) := by
  refine ⟨?_, ?_, ?_, ?_⟩
  · intro e h
    simp [Provider.StartProviderExecutable, h]
  · intro mode h hexec
    simp [Provider.StartProviderExecutable, h, hexec]
  · intro mode h
    simp [Provider.isExecAny, h]
  · intro mode port h hexec hnl hcl e hst
    simp [Provider.StartProviderExecutable, h, hexec, Provider.startProcess, hnl, hcl, hst]

/-- C8 witness: a missing path, a non-executable regular file, the Windows
regular-file rule, and a failing launch, each at concrete inputs. -/
theorem start_provider_error_paths_witness :
    Provider.StartProviderExecutable "linux" fsMissing osLaunchOk "./prov" =
      .error "stat /x: no such file or directory" ∧
    Provider.StartProviderExecutable "linux" fsNonExec osLaunchOk "./prov" =
      .error "provider binary is not executable" ∧
    Provider.isExecAny "windows" { isRegular := true, perm := 0o644 } = true ∧
    Provider.StartProviderExecutable "linux" fsExec osLaunchFail "./prov" =
      .error "fork/exec ./prov: exec format error" := by
  refine ⟨?_, ?_, ?_, ?_⟩
  · exact (start_provider_error_paths "linux" fsMissing osLaunchOk "./prov").1 _ rfl
  · exact (start_provider_error_paths "linux" fsNonExec osLaunchOk "./prov").2.1
      { isRegular := true, perm := 0o644 } rfl (by decide)
  · exact (start_provider_error_paths "linux" fsMissing osLaunchOk "./prov").2.2.1
      { isRegular := true, perm := 0o644 } rfl
  · exact (start_provider_error_paths "linux" fsExec osLaunchFail "./prov").2.2.2
      { isRegular := true, perm := 0o755 } 50051 rfl (by decide) rfl rfl _ rfl

end GoCli

namespace GoCli

/-- C1 counterexample: with one route registered, `Proxy` stores the
request (the proxy field does not stay unset), and with a proxy already
registered the stored proxy becomes the new request (the original is not
retained). -/
theorem proxy_unset_retained_counterexample :
    routedReqs.routes ≠ [] ∧
    (∃ s', ServiceRequirements.Proxy routedReqs proxyReqB = .ok (s', ⟨⟩) ∧
      s'.proxy = some proxyReqB) ∧
    proxiedReqs.proxy = some proxyReqA ∧
    (∃ s', ServiceRequirements.Proxy proxiedReqs proxyReqB = .ok (s', ⟨⟩) ∧
      s'.proxy = some proxyReqB ∧ proxyReqB ≠ proxyReqA) := by
  refine ⟨by decide, ⟨_, rfl, rfl⟩, rfl, ⟨_, rfl, rfl, by decide⟩⟩

/-- C1 (amended): `Proxy` appends a conflict error when routes exist and
another when a proxy exists, never fails the RPC, and always stores the
incoming request in the proxy field — overwriting any original proxy
rather than leaving the field unset or retaining the first request. -/
theorem proxy_conflicts_but_overwrites (s : ServiceRequirements) (req : HttpProxyRequest) :
    ServiceRequirements.Proxy s req =
      .ok ({ s with
              errors := s.errors ++
                (if s.routes.length > 0 then [ServiceRequirements.proxyRoutesErr] else []) ++
                (if s.proxy.isSome then [ServiceRequirements.proxyDupErr] else []),
              proxy := some req }, ⟨⟩) := by
  unfold ServiceRequirements.Proxy
  by_cases h1 : s.routes.length > 0 <;> by_cases h2 : s.proxy.isSome <;> simp [h1, h2]

/-- C2: evaluation at the failing inputs.  The duplicate test of `Listen`
consults the declared-buckets map, not the listeners map: a second
listener registration for an undeclared bucket name records no conflict
and silently replaces the first listener, while a first listener
registration for a declared bucket records a conflict and stores no
listener at all. -/
theorem listen_duplicate_test_uses_buckets :
    (∃ s', ServiceRequirements.Listen listenedReqs (.ok (.registrationRequest listenReg2)) =
        .ok (s', .registrationResponse) ∧
      s'.errors = [] ∧ s'.listeners.lookupM "imgs" = some listenReg2) ∧
    (∃ s', ServiceRequirements.Listen declaredBucketReqs (.ok (.registrationRequest listenReg1)) =
        .ok (s', .registrationResponse) ∧
      s'.errors = ["bucket already registered: imgs"] ∧ s'.listeners = []) := by
  exact ⟨⟨_, rfl, rfl, rfl⟩, ⟨_, rfl, rfl, rfl⟩⟩

/-- C3: a schedule registration whose name is already registered appends
exactly one conflict error, still overwrites the stored registration with
the new one, and the RPC answers with the registration acknowledgment. -/
theorem schedule_conflict_still_overwrites (s : ServiceRequirements)
    (reg : ScheduleRegistrationRequest)
    (h : (s.schedules.lookupM reg.scheduleName).isSome = true) :
    ∃ s', ServiceRequirements.Schedule s (.ok (.registrationRequest reg)) =
        .ok (s', .registrationResponse) ∧
      s'.errors = s.errors ++ ["schedule already registered: " ++ reg.scheduleName] ∧
      s'.schedules.lookupM reg.scheduleName = some reg := by
  have hs : ServiceRequirements.Schedule s (.ok (.registrationRequest reg)) =
      .ok ({ s with errors := s.errors ++ ["schedule already registered: " ++ reg.scheduleName], schedules := s.schedules.upd reg.scheduleName reg }, .registrationResponse) := by
    simp [ServiceRequirements.Schedule, h]
  exact ⟨_, hs, rfl, SMap.lookupM_upd_self _ _ _⟩

/-- C3 witness: re-registering the schedule `"nightly"`. -/
theorem schedule_conflict_still_overwrites_witness :
    ∃ s', ServiceRequirements.Schedule scheduledReqs (.ok (.registrationRequest schedReg2)) =
        .ok (s', .registrationResponse) ∧
      s'.errors = scheduledReqs.errors ++ ["schedule already registered: " ++ schedReg2.scheduleName] ∧
      s'.schedules.lookupM schedReg2.scheduleName = some schedReg2 :=
  schedule_conflict_still_overwrites scheduledReqs schedReg2 (by decide)

end GoCli

namespace GoCli

/-- C4: a route registration that conflicts with an existing route on the
same API (overlapping methods, identical path) appends exactly one
conflict error and leaves the route table unchanged; a registration with
no such overlap is appended to that API's route sequence.  Either way the
registration acknowledgment is sent. -/
theorem serve_route_conflict_or_append (s : ServiceRequirements) (reg : ApiRegistrationRequest) :
    ((∃ r1 ∈ (s.routes.lookupM reg.api).getD [],
        ServiceRequirements.routeConflictsWith reg r1 = true) →
      ∃ ex, ex ∈ (s.routes.lookupM reg.api).getD [] ∧
        ServiceRequirements.routeConflictsWith reg ex = true ∧
        ServiceRequirements.Serve s (.ok (.registrationRequest reg)) =
          .ok ({ s with errors := s.errors ++ ["route already registered: " ++ ex.api ++ " " ++ ex.path] }, .registrationResponse)) ∧
    ((∀ r1 ∈ (s.routes.lookupM reg.api).getD [],
        ServiceRequirements.routeConflictsWith reg r1 = false) →
      ServiceRequirements.Serve s (.ok (.registrationRequest reg)) =
        .ok ({ s with routes := s.routes.appendTo reg.api reg }, .registrationResponse)) := by
  constructor
  · intro hex
    have hsome : (((s.routes.lookupM reg.api).getD []).find?
        (ServiceRequirements.routeConflictsWith reg)).isSome := by
      rw [List.find?_isSome]
      obtain ⟨r1, hmem, hc⟩ := hex
      exact ⟨r1, hmem, hc⟩
    obtain ⟨ex, hfind⟩ := Option.isSome_iff_exists.mp hsome
    refine ⟨ex, List.mem_of_find?_eq_some hfind, List.find?_some hfind, ?_⟩
    simp [ServiceRequirements.Serve, hfind]
  · intro hall
    have hnone : (((s.routes.lookupM reg.api).getD []).find?
        (ServiceRequirements.routeConflictsWith reg)) = none := by
      rw [List.find?_eq_none]
      intro x hx
      simp [hall x hx]
    simp [ServiceRequirements.Serve, hnone]

/-- C4 witness: `sampleRoute2` overlaps the registered `sampleRoute`
(method POST, same path) and is rejected with one error;
`sampleRouteOther` has a different path and is appended. -/
theorem serve_route_conflict_or_append_witness :
    (∃ ex, ex ∈ (routedReqs.routes.lookupM sampleRoute2.api).getD [] ∧
      ServiceRequirements.routeConflictsWith sampleRoute2 ex = true ∧
      ServiceRequirements.Serve routedReqs (.ok (.registrationRequest sampleRoute2)) =
        .ok ({ routedReqs with errors := routedReqs.errors ++ ["route already registered: " ++ ex.api ++ " " ++ ex.path] }, .registrationResponse)) ∧
    ServiceRequirements.Serve routedReqs (.ok (.registrationRequest sampleRouteOther)) =
      .ok ({ routedReqs with routes := routedReqs.routes.appendTo sampleRouteOther.api sampleRouteOther }, .registrationResponse) := by
  constructor
  · exact (serve_route_conflict_or_append routedReqs sampleRoute2).1 (by decide)
  · exact (serve_route_conflict_or_append routedReqs sampleRouteOther).2 (by decide)

/-- C5: on every aggregate reachable through the handlers (distinct map
keys, no empty slices), `WorkerCount` equals the specification's sum of
APIs with at least one route, distinct storage listeners, distinct
schedules, topics with at least one subscription and sockets with at
least one handler; it is a pure function of the current state, recomputed
at each call. -/
theorem workerCount_matches_spec (s : ServiceRequirements) (h : WF s) :
    s.WorkerCount = specWorkerCount s := by
  obtain ⟨hr, hrne, hsch, hsub, hsubne, hw, hwne, hl⟩ := h
  unfold ServiceRequirements.WorkerCount specWorkerCount
  rw [filter_ne_nil_eq_self _ hrne, filter_ne_nil_eq_self _ hsubne, filter_ne_nil_eq_self _ hwne,
      dedup_keys_length _ hr, dedup_keys_length _ hl, dedup_keys_length _ hsch,
      dedup_keys_length _ hsub, dedup_keys_length _ hw]

/-- C5 witness: an aggregate populating every summand. -/
theorem workerCount_matches_spec_witness :
    WF workerReqs ∧ workerReqs.WorkerCount = specWorkerCount workerReqs :=
  ⟨by decide, workerCount_matches_spec workerReqs (by decide)⟩

/-- C6: for the five plain resource kinds, `Declare` overwrites the
definition stored under the declared name without touching the error log
and acknowledges with the empty response and no RPC error; a declaration
of any kind the dispatch does not recognize changes nothing and also
acknowledges. -/
theorem declare_overwrite_ack_ignore (s : ServiceRequirements) (req : ResourceDeclareRequest) :
    (req.resource.type = .Bucket → ∃ s', ServiceRequirements.Declare s req = .ok (s', ⟨⟩) ∧
      s'.buckets.lookupM req.resource.name = some req.config.getBucket ∧ s'.errors = s.errors) ∧
    (req.resource.type = .Collection → ∃ s', ServiceRequirements.Declare s req = .ok (s', ⟨⟩) ∧
      s'.collections.lookupM req.resource.name = some req.config.getCollection ∧ s'.errors = s.errors) ∧
    (req.resource.type = .Api → ∃ s', ServiceRequirements.Declare s req = .ok (s', ⟨⟩) ∧
      s'.apis.lookupM req.resource.name = some req.config.getApi ∧ s'.errors = s.errors) ∧
    (req.resource.type = .Secret → ∃ s', ServiceRequirements.Declare s req = .ok (s', ⟨⟩) ∧
      s'.secrets.lookupM req.resource.name = some req.config.getSecret ∧ s'.errors = s.errors) ∧
    (req.resource.type = .Topic → ∃ s', ServiceRequirements.Declare s req = .ok (s', ⟨⟩) ∧
      s'.topics.lookupM req.resource.name = some req.config.getTopic ∧ s'.errors = s.errors) ∧
    (req.resource.type ∈ ([.Function, .Websocket, .Http, .Queue, .Schedule, .Subscription,
        .Notification] : List ResourceType) →
      ServiceRequirements.Declare s req = .ok (s, ⟨⟩)) := by
  refine ⟨?_, ?_, ?_, ?_, ?_, ?_⟩
  · intro h
    refine ⟨{ s with buckets := s.buckets.upd req.resource.name req.config.getBucket }, ?_, SMap.lookupM_upd_self _ _ _, rfl⟩
    unfold ServiceRequirements.Declare
    rw [h]
  · intro h
    refine ⟨{ s with collections := s.collections.upd req.resource.name req.config.getCollection }, ?_, SMap.lookupM_upd_self _ _ _, rfl⟩
    unfold ServiceRequirements.Declare
    rw [h]
  · intro h
    refine ⟨{ s with apis := s.apis.upd req.resource.name req.config.getApi }, ?_, SMap.lookupM_upd_self _ _ _, rfl⟩
    unfold ServiceRequirements.Declare
    rw [h]
  · intro h
    refine ⟨{ s with secrets := s.secrets.upd req.resource.name req.config.getSecret }, ?_, SMap.lookupM_upd_self _ _ _, rfl⟩
    unfold ServiceRequirements.Declare
    rw [h]
  · intro h
    refine ⟨{ s with topics := s.topics.upd req.resource.name req.config.getTopic }, ?_, SMap.lookupM_upd_self _ _ _, rfl⟩
    unfold ServiceRequirements.Declare
    rw [h]
  · intro h
    simp only [List.mem_cons, List.mem_singleton, List.not_mem_nil] at h
    unfold ServiceRequirements.Declare
    rcases h with h | h | h | h | h | h | h | h <;> first | rw [h] | cases h

/-- C6 witness: re-declaring bucket `"store"` overwrites the previous
definition and logs nothing; a `Websocket`-kind declaration is ignored. -/
theorem declare_overwrite_ack_ignore_witness :
    (∃ s', ServiceRequirements.Declare predeclaredReqs bucketDeclReq = .ok (s', ⟨⟩) ∧
      s'.buckets.lookupM bucketDeclReq.resource.name = some bucketDeclReq.config.getBucket ∧
      s'.errors = predeclaredReqs.errors) ∧
    ServiceRequirements.Declare predeclaredReqs websocketDeclReq = .ok (predeclaredReqs, ⟨⟩) := by
  constructor
  · exact (declare_overwrite_ack_ignore predeclaredReqs bucketDeclReq).1 rfl
  · exact (declare_overwrite_ack_ignore predeclaredReqs websocketDeclReq).2.2.2.2.2 (by decide)

/-- C7: a policy declared with no principals is stored under the declared
name with exactly one synthesized principal — the declaring service's
name with the service (`Function`) kind; a policy with principals has
every empty-named service-kind principal's name back-filled and nothing
else altered. -/
theorem policy_principal_synthesis (s : ServiceRequirements) (req : ResourceDeclareRequest)
    (pol : PolicyResource) (ht : req.resource.type = .Policy)
    (hp : req.config.getPolicy = some pol) :
    (pol.principals = [] →
      ServiceRequirements.Declare s req = .ok ({ s with policies := s.policies.upd req.resource.name (some { pol with principals := [{ name := s.serviceName, type := .Function }] }) }, ⟨⟩)) ∧
    (pol.principals ≠ [] →
      ServiceRequirements.Declare s req = .ok ({ s with policies := s.policies.upd req.resource.name (some { pol with principals := pol.principals.map (ServiceRequirements.backfillPrincipal s.serviceName) }) }, ⟨⟩)) := by
  constructor
  · intro hpr
    unfold ServiceRequirements.Declare
    rw [ht, hp]
    simp [hpr]
  · intro hpr
    unfold ServiceRequirements.Declare
    rw [ht, hp]
    simp [hpr]

/-- C7 witness: a principal-less policy acquires the one service
principal; a policy with an empty-named service principal and a named
bucket principal has only the former's name filled in. -/
theorem policy_principal_synthesis_witness :
    ServiceRequirements.Declare emptyReqs policyNoPrincipals =
      .ok ({ emptyReqs with policies := emptyReqs.policies.upd policyNoPrincipals.resource.name (some { principals := [{ name := emptyReqs.serviceName, type := .Function }], actions := [3], resources := [{ name := "store", type := .Bucket }] }) }, ⟨⟩) ∧
    ServiceRequirements.Declare emptyReqs policyWithPrincipals =
      .ok ({ emptyReqs with policies := emptyReqs.policies.upd policyWithPrincipals.resource.name (some { principals := [{ name := emptyReqs.serviceName, type := .Function }, { name := "store", type := .Bucket }], actions := [4], resources := [] }) }, ⟨⟩) := by
  constructor
  · exact (policy_principal_synthesis emptyReqs policyNoPrincipals _ rfl rfl).1 rfl
  · exact (policy_principal_synthesis emptyReqs policyWithPrincipals _ rfl rfl).2 (by decide)

/-- C10: every successful `Declare` call leaves the routes, schedules,
subscriptions, websockets and listeners maps, the proxy field and the
errors sequence unchanged; moreover only the single resource mapping of
the dispatched kind is modified — for each recognized kind the result
state equals the input state with at most that kind's mapping overridden
(so every other resource mapping, the service identity and all other
fields are untouched), for `ApiSecurityDefinition` every other API's
inner mapping is also unchanged, and an unhandled kind changes nothing at
all. -/
theorem declare_frame (s : ServiceRequirements) (req : ResourceDeclareRequest)
    (s' : ServiceRequirements) (resp : ResourceDeclareResponse)
    (h : ServiceRequirements.Declare s req = .ok (s', resp)) :
    s'.routes = s.routes ∧ s'.schedules = s.schedules ∧ s'.subscriptions = s.subscriptions ∧
    s'.websockets = s.websockets ∧ s'.listeners = s.listeners ∧ s'.proxy = s.proxy ∧
    s'.errors = s.errors ∧
    (req.resource.type = .Bucket → s' = { s with buckets := s'.buckets }) ∧
    (req.resource.type = .Collection → s' = { s with collections := s'.collections }) ∧
    (req.resource.type = .Api → s' = { s with apis := s'.apis }) ∧
    (req.resource.type = .ApiSecurityDefinition →
      s' = { s with apiSecurityDefinition := s'.apiSecurityDefinition } ∧
      ∀ api, api ≠ ((req.config.getApiSecurityDefinition).map (fun d => d.apiName)).getD "" →
        s'.apiSecurityDefinition.lookupM api = s.apiSecurityDefinition.lookupM api) ∧
    (req.resource.type = .Secret → s' = { s with secrets := s'.secrets }) ∧
    (req.resource.type = .Policy → s' = { s with policies := s'.policies }) ∧
    (req.resource.type = .Topic → s' = { s with topics := s'.topics }) ∧
    (req.resource.type ∈ ([.Function, .Websocket, .Http, .Queue, .Schedule, .Subscription,
        .Notification] : List ResourceType) → s' = s) := by
  obtain ⟨f1, f2, f3, f4, f5, f6, f7⟩ := Declare_keeps_trigger_state s req s' resp h
  refine ⟨f1, f2, f3, f4, f5, f6, f7, ?_, ?_, ?_, ?_, ?_, ?_, ?_, ?_⟩
  · intro ht
    unfold ServiceRequirements.Declare at h
    rw [ht] at h
    simp only [Except.ok.injEq, Prod.mk.injEq] at h
    obtain ⟨h1, h2⟩ := h
    subst h1
    rfl
  · intro ht
    unfold ServiceRequirements.Declare at h
    rw [ht] at h
    simp only [Except.ok.injEq, Prod.mk.injEq] at h
    obtain ⟨h1, h2⟩ := h
    subst h1
    rfl
  · intro ht
    unfold ServiceRequirements.Declare at h
    rw [ht] at h
    simp only [Except.ok.injEq, Prod.mk.injEq] at h
    obtain ⟨h1, h2⟩ := h
    subst h1
    rfl
  · intro ht
    unfold ServiceRequirements.Declare at h
    rw [ht] at h
    simp only [Except.ok.injEq, Prod.mk.injEq] at h
    obtain ⟨h1, h2⟩ := h
    subst h1
    refine ⟨rfl, ?_⟩
    intro api hapi
    exact SMap.lookupM_upd_ne _ _ _ _ hapi
  · intro ht
    unfold ServiceRequirements.Declare at h
    rw [ht] at h
    simp only [Except.ok.injEq, Prod.mk.injEq] at h
    obtain ⟨h1, h2⟩ := h
    subst h1
    rfl
  · intro ht
    unfold ServiceRequirements.Declare at h
    rw [ht] at h
    cases hp : req.config.getPolicy with
    | none => rw [hp] at h; simp at h
    | some pol =>
        rw [hp] at h
        simp only [Except.ok.injEq, Prod.mk.injEq] at h
        obtain ⟨h1, h2⟩ := h
        subst h1
        rfl
  · intro ht
    unfold ServiceRequirements.Declare at h
    rw [ht] at h
    simp only [Except.ok.injEq, Prod.mk.injEq] at h
    obtain ⟨h1, h2⟩ := h
    subst h1
    rfl
  · intro hmem
    unfold ServiceRequirements.Declare at h
    simp only [List.mem_cons, List.not_mem_nil, or_false] at hmem
    rcases hmem with ht | ht | ht | ht | ht | ht | ht <;>
      rw [ht] at h <;>
      simp only [Except.ok.injEq, Prod.mk.injEq] at h <;>
      exact h.1.symm

/-- C10 witness: re-declaring bucket `"store"` leaves every field of the
aggregate but the buckets map unchanged. -/
theorem declare_frame_witness :
    predeclaredAfter.routes = predeclaredReqs.routes ∧
    predeclaredAfter.schedules = predeclaredReqs.schedules ∧
    predeclaredAfter.subscriptions = predeclaredReqs.subscriptions ∧
    predeclaredAfter.websockets = predeclaredReqs.websockets ∧
    predeclaredAfter.listeners = predeclaredReqs.listeners ∧
    predeclaredAfter.proxy = predeclaredReqs.proxy ∧
    predeclaredAfter.errors = predeclaredReqs.errors ∧
    predeclaredAfter = { predeclaredReqs with buckets := predeclaredAfter.buckets } := by
  obtain ⟨h1, h2, h3, h4, h5, h6, h7, h8, _⟩ :=
    declare_frame predeclaredReqs bucketDeclReq predeclaredAfter ⟨⟩ rfl
  exact ⟨h1, h2, h3, h4, h5, h6, h7, h8 rfl⟩

end GoCli
